import Mathlib

/-!
Shallow embedding of `src/flash-source-buffer.js` (FlashSourceBuffer), the
chunked-delivery and timestamp-synchronization engine of
videojs-contrib-media-sources' Flash path.

Modelling conventions:
- JavaScript numbers that may be `NaN` are modelled as `Option ℚ`
  (`none` = `NaN`); arithmetic on them propagates `none` like `NaN`.
- Plain numeric values (the timestamp offset, playback time, cue times)
  are modelled as `ℚ`.
- The observable side effects of each method (events triggered on the
  source buffer, messages posted to the transmuxer worker, calls into the
  SWF sink, the `readyState` assignment on the parent media source) are
  recorded in order in an effect trace stored in the state, so that the
  relative order of effects inside one method is visible.
- The chunk queue `buffer_` holds the base64 chunk strings exactly as the
  source does; `bufferSize_` is the byte counter field.
-/

namespace FlashSourceBuffer

/-- A message posted to the transmuxer worker via `postMessage`. -/
inductive DemuxMsg where
  | initMsg : DemuxMsg
  | push (buffer : List Nat) (byteOffset byteLength : Nat) : DemuxMsg
  | flush : DemuxMsg
  | reset : DemuxMsg
  | convertTagsToData (targetPts : Option ℚ) : DemuxMsg
  deriving DecidableEq, Repr

/-- One observable side effect of a FlashSourceBuffer method, in program
order: an event triggered on the buffer, a message posted to the
transmuxer, a call into the SWF sink, or the `readyState` write on the
parent media source. -/
inductive Eff where
  | fireEvent (name : String) : Eff
  | postMsg (m : DemuxMsg) : Eff
  | sinkAbort : Eff
  | sinkDiscontinuity : Eff
  | sinkAppendChunkReady : Eff
  | setReadyState (v : String) : Eff
  deriving DecidableEq, Repr

/-- The mutable state of one FlashSourceBuffer instance, together with the
state it reaches through on its collaborators (parent media source
readyState, tech playback state) and the accumulated effect trace. -/
structure SB where
  /-- `this.buffer_`: base64 chunk strings queued for the SWF. -/
  buffer_ : List String
  /-- `this.bufferSize_`: the total number of queued bytes. -/
  bufferSize_ : Nat
  /-- `this.basePtsOffset_`: `none` models `NaN` (unset). -/
  basePtsOffset_ : Option ℚ
  /-- `this.updating`. -/
  updating : Bool
  /-- `this.timestampOffset_`. -/
  timestampOffset_ : ℚ
  /-- `this.mediaSource_.readyState`. -/
  readyState : String
  /-- Cue times held by `this.metadataTrack_`. -/
  metadataTrack_ : List ℚ
  /-- Cue times held by `this.inbandTextTrack_`. -/
  inbandTextTrack_ : List ℚ
  /-- `this.mediaSource_.tech_.seeking()`. -/
  techSeeking : Bool
  /-- `this.mediaSource_.tech_.currentTime()`. -/
  techCurrentTime : ℚ
  /-- Observable side effects accumulated so far, in program order. -/
  trace : List Eff
  deriving DecidableEq, Repr

/-- The state produced by the constructor: empty queue, zero byte counter,
`basePtsOffset_ = NaN`, `updating = false`, `timestampOffset_ = 0`; the
constructor hands the encoded FLV header to the sink via
`vjs_appendChunkReady` and posts the `init` action to the transmuxer. -/
def initSB (readyState : String) (techSeeking : Bool) (techCurrentTime : ℚ) : SB :=
  { buffer_ := []
    bufferSize_ := 0
    basePtsOffset_ := none
    updating := false
    timestampOffset_ := 0
    readyState := readyState
    metadataTrack_ := []
    inbandTextTrack_ := []
    techSeeking := techSeeking
    techCurrentTime := techCurrentTime
    trace := [Eff.sinkAppendChunkReady, Eff.postMsg DemuxMsg.initMsg] }

/-- JavaScript `+` on possibly-NaN numbers: `NaN` propagates. -/
def jsAdd : Option ℚ → Option ℚ → Option ℚ
  | some x, some y => some (x + y)
  | _, _ => none

/-- JavaScript `Math.round`: round half toward positive infinity. -/
def jsRound (q : ℚ) : ℤ := ⌊q + 1 / 2⌋

/-- `toDecimalPlaces(num, places)` from the source: a non-number or
negative `places` is replaced by `0`; then
`Math.round(num * 10^places) / 10^places`. `none` models a non-number
`places` argument. -/
def toDecimalPlaces (num : ℚ) (places : Option ℤ) : ℚ :=
  let p : ℕ := match places with
    | none => 0
    | some k => if k < 0 then 0 else k.toNat
  let scale : ℚ := 10 ^ p
  (jsRound (num * scale) : ℚ) / scale

/-- The error thrown by `appendBuffer` while an update is in progress. -/
structure JsErr where
  name : String
  message : String
  code : Nat
  deriving DecidableEq, Repr

/-- The concrete `InvalidStateError` built in `appendBuffer`. -/
def invalidStateError : JsErr :=
  { name := "InvalidStateError"
    message := "SourceBuffer.append() cannot be called while an update is in progress"
    code := 11 }

/-- The `bytes` argument of `appendBuffer`: a typed-array view with its
backing buffer, byte offset and byte length. -/
structure ByteView where
  buffer : List Nat
  byteOffset : Nat
  byteLength : Nat
  deriving DecidableEq, Repr

/-- `appendBuffer(bytes)`: throws `InvalidStateError` (returning the
state untouched, since the throw precedes every assignment) when
`updating` is true; otherwise sets `updating := true`, sets the parent
media source's `readyState` to "open", fires `update`, and posts `push`
then `flush` to the transmuxer. -/
def appendBuffer (s : SB) (bytes : ByteView) : Option JsErr × SB :=
  if s.updating then
    (some invalidStateError, s)
  else
    (none,
      { s with
        updating := true
        readyState := "open"
        trace := s.trace ++
          [Eff.setReadyState "open",
           Eff.fireEvent "update",
           Eff.postMsg (DemuxMsg.push bytes.buffer bytes.byteOffset bytes.byteLength),
           Eff.postMsg DemuxMsg.flush] })

/-- `abort()`: clears the chunk queue and byte counter, calls
`vjs_abort` on the sink, and only when an update was in flight forces
`updating := false` and fires `updateend`. -/
def abort (s : SB) : SB :=
  let s1 : SB := { s with
    buffer_ := []
    bufferSize_ := 0
    trace := s.trace ++ [Eff.sinkAbort] }
  if s1.updating then
    { s1 with updating := false, trace := s1.trace ++ [Eff.fireEvent "updateend"] }
  else
    s1

/-- Modelled from the spec: `remove-cues-from-track.js` is not under
`src/`; per the spec it removes the caption/metadata entries lying in
`[start, end)` from a text track. Tracks are modelled by their cue
times. -/
def removeCuesFromTrack (start endTime : ℚ) (track : List ℚ) : List ℚ :=
  track.filter (fun t => decide (t < start) || decide (endTime ≤ t))

/-- `remove(start, end)`: removes cues in range from both text tracks,
then fires `update` followed by `updateend`; the chunk queue is not
touched. -/
def remove (s : SB) (start endTime : ℚ) : SB :=
  { s with
    metadataTrack_ := removeCuesFromTrack start endTime s.metadataTrack_
    inbandTextTrack_ := removeCuesFromTrack start endTime s.inbandTextTrack_
    trace := s.trace ++ [Eff.fireEvent "update", Eff.fireEvent "updateend"] }

/-- A value written to the `timestampOffset` property: a JavaScript
number (possibly `NaN`, modelled by `num none`) or any non-number. -/
inductive JSVal where
  | num (v : Option ℚ) : JSVal
  | other : JSVal
  deriving DecidableEq, Repr

/-- The `timestampOffset` setter: accepts only a number `>= 0`
(`NaN >= 0` is false in JavaScript, so `NaN` is rejected too); on
acceptance stores the value, calls `vjs_discontinuity` on the sink,
clears `basePtsOffset_` to `NaN` and posts `reset` to the transmuxer;
otherwise the write is silently ignored. -/
def setTimestampOffset (s : SB) (val : JSVal) : SB :=
  match val with
  | JSVal.num (some v) =>
    if 0 ≤ v then
      { s with
        timestampOffset_ := v
        basePtsOffset_ := none
        trace := s.trace ++ [Eff.sinkDiscontinuity, Eff.postMsg DemuxMsg.reset] }
    else s
  | _ => s

/-- The `timestampOffset` getter. -/
def getTimestampOffset (s : SB) : ℚ := s.timestampOffset_

/-- `calculateTargetPts_(basePts, length)`: establishes
`basePtsOffset_ := basePts` only when it is currently `NaN` and `length`
is truthy (nonzero); then computes `targetPts = 0`, lifted to
`max(targetPts, currentTime - timestampOffset)` when the tech is seeking,
scaled to milliseconds and added (NaN-propagating) to the baseline.
Returns the updated state and the result. -/
def calculateTargetPts_ (s : SB) (basePts : ℚ) (length : Nat) : SB × Option ℚ :=
  let s1 : SB :=
    if s.basePtsOffset_.isNone ∧ length ≠ 0 then
      { s with basePtsOffset_ := some basePts }
    else s
  let targetPts : ℚ := 0
  let targetPts : ℚ :=
    if s1.techSeeking then max targetPts (s1.techCurrentTime - s1.timestampOffset_)
    else targetPts
  let targetPts : ℚ := targetPts * 1000
  (s1, jsAdd (some targetPts) s1.basePtsOffset_)

/-- A demuxer `metadata` segment as consumed by `receiveBuffer_`. -/
structure Segment where
  basePts : ℚ
  length : Nat
  captions : List ℚ
  metadata : List ℚ
  deriving DecidableEq, Repr

/-- Modelled from the spec: `create-text-tracks-if-necessary.js` is not
under `src/`; it only ensures the derived text tracks exist before cues
are added. In this model both tracks always exist, so it is the
identity on the state. -/
def createTextTracksIfNecessary (s : SB) (_seg : Segment) : SB := s

/-- Modelled from the spec: `add-text-track-data.js` is not under
`src/`; per the spec it pushes the segment's caption entries into the
in-band text track and its metadata entries into the metadata track. -/
def addTextTrackData (s : SB) (captions metadata : List ℚ) : SB :=
  { s with
    inbandTextTrack_ := s.inbandTextTrack_ ++ captions
    metadataTrack_ := s.metadataTrack_ ++ metadata }

/-- `receiveBuffer_(segment)`: ensures text tracks, adds cue data,
computes the target PTS via `calculateTargetPts_`, and posts
`convertTagsToData` with that target PTS to the transmuxer. -/
def receiveBuffer_ (s : SB) (seg : Segment) : SB :=
  let s1 := addTextTrackData (createTextTracksIfNecessary s seg) seg.captions seg.metadata
  let r := calculateTargetPts_ s1 seg.basePts seg.length
  { r.1 with trace := r.1.trace ++ [Eff.postMsg (DemuxMsg.convertTagsToData r.2)] }

/-- The `data` handler of the transmuxer `onmessage`: concatenates the
received base64 chunks onto the queue (and schedules `processBuffer_`). -/
def onData (s : SB) (b64 : List String) : SB :=
  { s with buffer_ := s.buffer_ ++ b64 }

/-- One observable event of the delivery loop: a chunk payload thrown to
the sink from the one-shot global callback, or the `updateend` event. -/
inductive DrainEv where
  | deliver (chunk : String) : DrainEv
  | updateendEv : DrainEv
  deriving DecidableEq, Repr

/-- The full drain of the chunk queue by `processBuffer_` together with
the sink-ready callback `throwDataSuperSecret`, assuming the sink invokes
every registered callback. Mirrors the source statement for statement:

* empty queue: if `updating` is not false, clear it and fire `updateend`;
* otherwise shift the head chunk and register the callback; when the sink
  invokes it, the callback first either re-arms the next `processBuffer_`
  tick (queue still non-empty) or clears `updating` and fires `updateend`
  (queue empty), and only then throws the chunk payload to the sink.

Returns the event trace and the final value of `updating`. -/
def processBufferDrain : List String → Bool → List DrainEv × Bool
  | [], u => if u then ([DrainEv.updateendEv], false) else ([], u)
  | [c], _ => ([DrainEv.updateendEv, DrainEv.deliver c], false)
  | c :: c2 :: rest, u =>
    let r := processBufferDrain (c2 :: rest) u
    (DrainEv.deliver c :: r.1, r.2)

/-- Availability of the sink as seen by the `buffered` getter:
whether `this.mediaSource_`, its `swfObj` and the swf's
`vjs_getProperty` exist, and what `vjs_getProperty('buffered')` would
return (`none` models a null/undefined result). -/
structure SinkView where
  hasMediaSource : Bool
  hasSwfObj : Bool
  hasGetProperty : Bool
  ranges : Option (List (ℚ × ℚ))
  deriving DecidableEq, Repr

/-- `videojs.createTimeRanges`: an undefined/null argument yields the
empty range set. -/
def createTimeRanges : Option (List (ℚ × ℚ)) → List (ℚ × ℚ)
  | none => []
  | some l => l

/-- The `buffered` getter: with the media source, swf object or its
`vjs_getProperty` missing it returns the empty range set; otherwise it
fetches the range list and, when that list is truthy and non-empty,
rounds the first range's bounds to 3 decimal places. -/
def bufferedGetter (v : SinkView) : List (ℚ × ℚ) :=
  if ¬v.hasMediaSource ∨ ¬v.hasSwfObj ∨ ¬v.hasGetProperty then
    []
  else
    let buffered := v.ranges
    let buffered := match buffered with
      | some ((a, b) :: rest) =>
        some ((toDecimalPlaces a (some 3), toDecimalPlaces b (some 3)) :: rest)
      | x => x
    createTimeRanges buffered

end FlashSourceBuffer

namespace FlashSourceBuffer

/-- C1: `appendBuffer(bytes)` throws an error named `InvalidStateError`
(code 11) exactly when `updating` is true at the call, and in that case
the chunk queue and all other state are unchanged; when `updating` is
false it sets `updating := true`, fires `update`, and posts `push`
followed immediately by `flush` to the demuxer. -/
theorem appendBuffer_spec (s : SB) (bytes : ByteView) :
    ((appendBuffer s bytes).1.isSome = s.updating) ∧
    (s.updating = true →
      (appendBuffer s bytes).1 = some invalidStateError ∧
      invalidStateError.name = "InvalidStateError" ∧
      (appendBuffer s bytes).2 = s) ∧
    (s.updating = false →
      (appendBuffer s bytes).2.updating = true ∧
      (appendBuffer s bytes).2.buffer_ = s.buffer_ ∧
      (appendBuffer s bytes).2.trace = s.trace ++
        [Eff.setReadyState "open",
         Eff.fireEvent "update",
         Eff.postMsg (DemuxMsg.push bytes.buffer bytes.byteOffset bytes.byteLength),
         Eff.postMsg DemuxMsg.flush]) := by
  unfold appendBuffer invalidStateError
  cases h : s.updating <;> simp

/-- Witness for C1: at a concrete updating state the call throws and
leaves the state unchanged; at the fresh state it succeeds. -/
theorem appendBuffer_spec_witness :
    ((appendBuffer (initSB "closed" false 0) ⟨[1, 2], 0, 2⟩).2.updating = true) ∧
    ((appendBuffer ((appendBuffer (initSB "closed" false 0) ⟨[1, 2], 0, 2⟩).2)
        ⟨[3], 0, 1⟩).1 = some invalidStateError) := by
  have h1 := appendBuffer_spec (initSB "closed" false 0) ⟨[1, 2], 0, 2⟩
  have h2 := appendBuffer_spec ((appendBuffer (initSB "closed" false 0) ⟨[1, 2], 0, 2⟩).2)
      ⟨[3], 0, 1⟩
  refine ⟨(h1.2.2 (by decide)).1, (h2.2.1 ?_).1⟩
  exact (h1.2.2 (by decide)).1

/-- C3: after `abort()` the chunk queue is empty, the byte counter is
zero and `updating` is false, for every prior state (in particular no
prior `appendBuffer` is required); `updateend` is fired by `abort()`
exactly when `updating` was true at the call. -/
theorem abort_spec (s : SB) :
    (abort s).buffer_ = [] ∧
    (abort s).bufferSize_ = 0 ∧
    (abort s).updating = false ∧
    (abort s).trace = s.trace ++ [Eff.sinkAbort] ++
      (if s.updating then [Eff.fireEvent "updateend"] else []) := by
  unfold abort
  cases h : s.updating <;> simp

/-- C4: `calculateTargetPts_` assigns `basePtsOffset_` only when it is
currently unset (`NaN`) and the segment length is nonzero; a zero-length
segment never sets it, and once set it is never changed by any later
`calculateTargetPts_` call. -/
theorem calculateTargetPts_baseline (s : SB) (basePts : ℚ) (length : Nat) :
    (s.basePtsOffset_.isSome →
      (calculateTargetPts_ s basePts length).1.basePtsOffset_ = s.basePtsOffset_) ∧
    (length = 0 →
      (calculateTargetPts_ s basePts length).1.basePtsOffset_ = s.basePtsOffset_) ∧
    (s.basePtsOffset_ = none → length ≠ 0 →
      (calculateTargetPts_ s basePts length).1.basePtsOffset_ = some basePts) := by
  unfold calculateTargetPts_
  refine ⟨fun h => ?_, fun h => ?_, fun h h' => ?_⟩
  · rcases hb : s.basePtsOffset_ with _ | v
    · rw [hb] at h; simp at h
    · simp [hb]
  · simp [h]
  · simp [h, h']

/-- Witness for C4: starting unset, a zero-length segment leaves the
baseline unset, a nonzero one establishes it, and a further call does not
change it. -/
theorem calculateTargetPts_baseline_witness :
    (calculateTargetPts_ (initSB "open" false 0) 500 0).1.basePtsOffset_ = none ∧
    (calculateTargetPts_ (initSB "open" false 0) 1000 10).1.basePtsOffset_ = some 1000 ∧
    (calculateTargetPts_ (calculateTargetPts_ (initSB "open" false 0) 1000 10).1
        2000 10).1.basePtsOffset_ = some 1000 := by
  have h0 := calculateTargetPts_baseline (initSB "open" false 0) 500 0
  have h1 := calculateTargetPts_baseline (initSB "open" false 0) 1000 10
  have hset : (calculateTargetPts_ (initSB "open" false 0) 1000 10).1.basePtsOffset_
      = some 1000 := h1.2.2 rfl (by decide)
  have h2 := calculateTargetPts_baseline
      (calculateTargetPts_ (initSB "open" false 0) 1000 10).1 2000 10
  refine ⟨h0.2.1 rfl, hset, ?_⟩
  rw [h2.1 (by rw [hset]; rfl), hset]

/-- C5: `calculateTargetPts_(basePts, length)` returns
`(max 0 (currentTime - timestampOffset)) * 1000 + baseline` when the tech
is seeking and exactly the baseline when it is not, where the baseline is
`basePtsOffset_` after the establishing step (addition propagates NaN). -/
theorem calculateTargetPts_value (s : SB) (basePts : ℚ) (length : Nat) :
    (s.techSeeking = true →
      (calculateTargetPts_ s basePts length).2 =
        jsAdd (some (max 0 (s.techCurrentTime - s.timestampOffset_) * 1000))
          (calculateTargetPts_ s basePts length).1.basePtsOffset_) ∧
    (s.techSeeking = false →
      (calculateTargetPts_ s basePts length).2 =
        (calculateTargetPts_ s basePts length).1.basePtsOffset_) := by
  unfold calculateTargetPts_
  by_cases hb : s.basePtsOffset_.isNone = true ∧ length ≠ 0
  · rw [if_pos hb]
    constructor
    · intro h; simp [h]
    · intro h; simp [h, jsAdd]
  · rw [if_neg hb]
    constructor
    · intro h; simp [h]
    · intro h
      cases hv : s.basePtsOffset_ with
      | none => simp [h, hv, jsAdd]
      | some v => simp [h, hv, jsAdd]

/-- Witness for C5: with the tech seeking at `currentTime = 7`,
`timestampOffset = 2` and an established baseline `1000`, the result is
`(7 - 2) * 1000 + 1000 = 6000`; not seeking, it is the baseline. -/
theorem calculateTargetPts_value_witness :
    (calculateTargetPts_
        { initSB "open" true 7 with timestampOffset_ := 2 } 1000 10).2 = some 6000 ∧
    (calculateTargetPts_
        { initSB "open" false 7 with timestampOffset_ := 2 } 1000 10).2 = some 1000 := by
  have h1 := (calculateTargetPts_value
      { initSB "open" true 7 with timestampOffset_ := 2 } 1000 10).1 rfl
  have h2 := (calculateTargetPts_value
      { initSB "open" false 7 with timestampOffset_ := 2 } 1000 10).2 rfl
  rw [h1, h2]
  constructor
  · norm_num [calculateTargetPts_, initSB, jsAdd]
  · norm_num [calculateTargetPts_, initSB]

/-- C6: writing `timestampOffset` with a non-negative number stores the
value (a subsequent read returns it), signals a discontinuity to the
sink, clears the PTS baseline to unset and posts `reset` to the demuxer,
leaving the queue and flags otherwise unchanged; writing a negative
number, `NaN`, or a non-number leaves the whole state unchanged. -/
theorem setTimestampOffset_spec (s : SB) (q : ℚ) :
    (0 ≤ q →
      getTimestampOffset (setTimestampOffset s (JSVal.num (some q))) = q ∧
      (setTimestampOffset s (JSVal.num (some q))).basePtsOffset_ = none ∧
      (setTimestampOffset s (JSVal.num (some q))).trace =
        s.trace ++ [Eff.sinkDiscontinuity, Eff.postMsg DemuxMsg.reset] ∧
      (setTimestampOffset s (JSVal.num (some q))).buffer_ = s.buffer_ ∧
      (setTimestampOffset s (JSVal.num (some q))).bufferSize_ = s.bufferSize_ ∧
      (setTimestampOffset s (JSVal.num (some q))).updating = s.updating ∧
      (setTimestampOffset s (JSVal.num (some q))).readyState = s.readyState) ∧
    (q < 0 → setTimestampOffset s (JSVal.num (some q)) = s) ∧
    (setTimestampOffset s (JSVal.num none) = s) ∧
    (setTimestampOffset s JSVal.other = s) := by
  refine ⟨fun h => ?_, fun h => ?_, rfl, rfl⟩
  · simp [setTimestampOffset, getTimestampOffset, h]
  · simp [setTimestampOffset, not_le.mpr h]

/-- Witness for C6: writing `5` to a state with baseline `1000` stores
`5` and clears the baseline; writing `-1` changes nothing. -/
theorem setTimestampOffset_spec_witness :
    getTimestampOffset (setTimestampOffset
      { initSB "open" false 0 with basePtsOffset_ := some 1000 } (JSVal.num (some 5))) = 5 ∧
    (setTimestampOffset
      { initSB "open" false 0 with basePtsOffset_ := some 1000 } (JSVal.num (some 5))).basePtsOffset_ = none ∧
    setTimestampOffset
      { initSB "open" false 0 with basePtsOffset_ := some 1000 } (JSVal.num (some (-1))) =
      { initSB "open" false 0 with basePtsOffset_ := some 1000 } := by
  have h := setTimestampOffset_spec
      { initSB "open" false 0 with basePtsOffset_ := some 1000 } 5
  have h' := setTimestampOffset_spec
      { initSB "open" false 0 with basePtsOffset_ := some 1000 } (-1)
  exact ⟨(h.1 (by norm_num)).1, (h.1 (by norm_num)).2.1, h'.2.1 (by norm_num)⟩

/-- C7: for every `start`, `end` and prior state, `remove` leaves the
chunk queue, its byte counter, the `updating` flag, the baseline, the
offset and the readyState unchanged, removes only cues from the two text
tracks, and fires exactly one `update` followed by exactly one
`updateend`, synchronously. -/
theorem remove_spec (s : SB) (start endTime : ℚ) :
    (remove s start endTime).buffer_ = s.buffer_ ∧
    (remove s start endTime).bufferSize_ = s.bufferSize_ ∧
    (remove s start endTime).updating = s.updating ∧
    (remove s start endTime).basePtsOffset_ = s.basePtsOffset_ ∧
    (remove s start endTime).timestampOffset_ = s.timestampOffset_ ∧
    (remove s start endTime).readyState = s.readyState ∧
    (remove s start endTime).metadataTrack_ =
      removeCuesFromTrack start endTime s.metadataTrack_ ∧
    (remove s start endTime).inbandTextTrack_ =
      removeCuesFromTrack start endTime s.inbandTextTrack_ ∧
    (remove s start endTime).trace =
      s.trace ++ [Eff.fireEvent "update", Eff.fireEvent "updateend"] := by
  unfold remove
  simp

/-- C10: every accepted `appendBuffer` call sets the parent media
source's `readyState` to "open", and does so before posting the bytes to
the demuxer (the `setReadyState` effect precedes the `push` effect in the
trace), whatever the prior `readyState` was. -/
theorem appendBuffer_readyState (s : SB) (bytes : ByteView) :
    s.updating = false →
    (appendBuffer s bytes).2.readyState = "open" ∧
    (appendBuffer s bytes).2.trace = s.trace ++
      (Eff.setReadyState "open" ::
        [Eff.fireEvent "update",
         Eff.postMsg (DemuxMsg.push bytes.buffer bytes.byteOffset bytes.byteLength),
         Eff.postMsg DemuxMsg.flush]) := by
  intro h
  unfold appendBuffer
  simp [h]

/-- Witness for C10: a concrete state whose `readyState` is "closed" and
whose `updating` is false gets `readyState = "open"` after the append. -/
theorem appendBuffer_readyState_witness :
    (initSB "closed" false 0).updating = false ∧
    (appendBuffer (initSB "closed" false 0) ⟨[7], 0, 1⟩).2.readyState = "open" := by
  refine ⟨by decide, (appendBuffer_readyState (initSB "closed" false 0) ⟨[7], 0, 1⟩ (by decide)).1⟩

/-- C8: reading `buffered` with the media source, swf object or its
`vjs_getProperty` missing returns the empty range set rather than an
error; with the sink available and a non-empty range list, the first
range's bounds are rounded to 3 decimal places
(`Math.round(x * 1000) / 1000`) and the rest returned unchanged. -/
theorem buffered_spec (v : SinkView) (a b : ℚ) (rest : List (ℚ × ℚ)) :
    ((v.hasMediaSource = false ∨ v.hasSwfObj = false ∨ v.hasGetProperty = false) →
      bufferedGetter v = []) ∧
    (v.hasMediaSource = true → v.hasSwfObj = true → v.hasGetProperty = true →
      v.ranges = some ((a, b) :: rest) →
      bufferedGetter v =
        (toDecimalPlaces a (some 3), toDecimalPlaces b (some 3)) :: rest) ∧
    toDecimalPlaces a (some 3) = (jsRound (a * 1000) : ℚ) / 1000 := by
  refine ⟨fun h => ?_, fun h1 h2 h3 h4 => ?_, ?_⟩
  · unfold bufferedGetter
    rcases h with h | h | h <;> simp [h]
  · simp [bufferedGetter, h1, h2, h3, h4, createTimeRanges]
  · have h : Int.toNat 3 = 3 := rfl
    simp only [toDecimalPlaces]
    norm_num [h]

/-- Witness for C8: an unavailable sink yields `[]`; an available sink
reporting `[(1.0005, 2)]` yields `[(1.001, 2)]`. -/
theorem buffered_spec_witness :
    bufferedGetter ⟨false, false, false, none⟩ = [] ∧
    bufferedGetter ⟨true, true, true, some [(2001 / 2000, 2)]⟩ =
      [(1001 / 1000, 2)] := by
  have h1 := (buffered_spec ⟨false, false, false, none⟩ 0 0 []).1 (Or.inl rfl)
  have h2 := (buffered_spec ⟨true, true, true, some [(2001 / 2000, 2)]⟩
      (2001 / 2000) 2 []).2.1 rfl rfl rfl rfl
  have h3 := (buffered_spec ⟨true, true, true, some [(2001 / 2000, 2)]⟩
      (2001 / 2000) 2 []).2.2
  have h4 := (buffered_spec ⟨true, true, true, some [(2001 / 2000, 2)]⟩
      2 0 []).2.2
  refine ⟨h1, ?_⟩
  rw [h2, h3, h4]
  norm_num [jsRound]

/-- C9: when `basePtsOffset_` is unset (`NaN`) and the segment length is
zero, `calculateTargetPts_` returns `NaN`, and `receiveBuffer_` posts a
`convertTagsToData` message to the demuxer carrying that `NaN` target
PTS. -/
theorem receiveBuffer_nanTarget (s : SB) (seg : Segment) :
    s.basePtsOffset_ = none → seg.length = 0 →
    (calculateTargetPts_ s seg.basePts seg.length).2 = none ∧
    (receiveBuffer_ s seg).trace =
      s.trace ++ [Eff.postMsg (DemuxMsg.convertTagsToData none)] := by
  intro h h'
  constructor
  · simp [calculateTargetPts_, h, h', jsAdd]
  · simp [receiveBuffer_, addTextTrackData, createTextTracksIfNecessary,
      calculateTargetPts_, h, h', jsAdd]

/-- Witness for C9: at the fresh state, a zero-length segment makes
`receiveBuffer_` post `convertTagsToData` with `NaN`. -/
theorem receiveBuffer_nanTarget_witness :
    (initSB "open" false 0).basePtsOffset_ = none ∧
    (receiveBuffer_ (initSB "open" false 0) ⟨500, 0, [], []⟩).trace =
      (initSB "open" false 0).trace ++
        [Eff.postMsg (DemuxMsg.convertTagsToData none)] :=
  ⟨rfl, (receiveBuffer_nanTarget (initSB "open" false 0) ⟨500, 0, [], []⟩ rfl rfl).2⟩

/-- The ordering property asserted by the original claim C2: in a drain
trace, every delivery to the sink happens strictly before any
`updateend` event. -/
def updateendAfterDeliveries (t : List DrainEv) : Prop :=
  ∀ i j c, t.get? i = some DrainEv.updateendEv →
    t.get? j = some (DrainEv.deliver c) → j < i

/-- Counterexample to C2 as stated: draining the two-chunk queue
`["a", "b"]` with `updating = true` produces the trace
`deliver "a", updateend, deliver "b"` — the `updateend` event is
triggered inside the sink-ready callback before the last chunk's payload
is thrown to the sink, so `updateend` does not come after the last
delivery. -/
theorem processBufferDrain_counterexample :
    (processBufferDrain ["a", "b"] true).1 =
      [DrainEv.deliver "a", DrainEv.updateendEv, DrainEv.deliver "b"] ∧
    ¬ updateendAfterDeliveries (processBufferDrain ["a", "b"] true).1 := by
  refine ⟨rfl, fun h => ?_⟩
  have := h 1 2 "b" rfl rfl
  omega

/-- C2 (amended): draining a non-empty queue `init ++ [last]` hands the
chunks to the sink exactly in enqueue order, one whole chunk at a time
(each `deliver` is a distinct sink-ready callback invocation, so at most
one delivery is outstanding); the `updating` flag ends false, and
`updateend` fires exactly once, during the sink's request for the last
chunk, immediately before that last chunk's payload is thrown to the
sink. -/
theorem processBufferDrain_spec (init : List String) (last : String) (u : Bool) :
    processBufferDrain (init ++ [last]) u =
      (init.map DrainEv.deliver ++ [DrainEv.updateendEv, DrainEv.deliver last],
        false) := by
  induction init with
  | nil => rfl
  | cons c rest ih =>
    cases rest with
    | nil => simp [processBufferDrain]
    | cons c2 r2 =>
      simp only [List.cons_append, processBufferDrain, List.append_eq] at ih ⊢
      rw [ih]
      simp

end FlashSourceBuffer
